import Mathlib

/- Verification development for the MACD early-alert monitor
   (macd_early_alert_app.py, v7.6).

   The development shallowly embeds the three parts of the program that the
   specification is about:
     1. the oscillator calculator (pandas ewm with adjust=False),
     2. the early-signal detector (macd_early_signal, source lines 138-164),
     3. the per-key notification deduplication of background_monitor
        (source lines 215-226) together with send_telegram (lines 193-200).

   Real (float) arithmetic of the source is modelled exactly over the
   rationals.  The single place where the source computes an irrational
   value, the rolling standard deviation used by the proximity gate, is
   embedded by its square (the sample variance), and the comparison
   distance < 0.4 * std is embedded as the equivalent comparison
   distance ^ 2 < variance * 0.16 (both sides of the original comparison are
   nonnegative); the equivalence with the square-root form is proved as part
   of claim C4. -/

namespace Macd

/-- One step of pandas ewm(span, adjust=False).mean():
    y[i] = (1 - alpha) * y[i-1] + alpha * x[i]. -/
def emaStep (a prev x : ℚ) : ℚ := (1 - a) * prev + a * x

/-- The tail of an exponential moving average, given the previous output. -/
def emaFrom (a prev : ℚ) : List ℚ → List ℚ
  | [] => []
  | x :: xs => emaStep a prev x :: emaFrom a (emaStep a prev x) xs

/-- series.ewm(span, adjust=False).mean() with a = 2 / (span + 1), seeded by
    the first sample (y[0] = x[0]). -/
def ema (a : ℚ) : List ℚ → List ℚ
  | [] => []
  | x :: xs => x :: emaFrom a x xs

/-- Smoothing factor of span 12: 2 / (12 + 1). -/
def alphaFast : ℚ := 2 / 13

/-- Smoothing factor of span 26: 2 / (26 + 1). -/
def alphaSlow : ℚ := 2 / 27

/-- Smoothing factor of span 9: 2 / (9 + 1). -/
def alphaSig : ℚ := 1 / 5

/-- dif = close.ewm(span=12).mean() - close.ewm(span=26).mean(). -/
def difSeries (closes : List ℚ) : List ℚ :=
  List.zipWith (fun a b => a - b) (ema alphaFast closes) (ema alphaSlow closes)

/-- dea = dif.ewm(span=9, adjust=False).mean(). -/
def deaSeries (closes : List ℚ) : List ℚ := ema alphaSig (difSeries closes)

/-- histogram = (dif - dea) * 2, elementwise. -/
def histSeries (closes : List ℚ) : List ℚ :=
  (List.zipWith (fun a b => a - b) (difSeries closes) (deaSeries closes)).map
    (fun x => x * 2)

/-- (dif - dea).abs(), elementwise: the gap series used by the proximity
    gate. -/
def gapSeries (closes : List ℚ) : List ℚ :=
  List.zipWith (fun a b => |a - b|) (difSeries closes) (deaSeries closes)

/-- Pandas negative indexing series.iloc[-k], with an (unreachable in the
    detector) default of 0. -/
def iloc (l : List ℚ) (k : ℕ) : ℚ := l.getD (l.length - k) 0

/-- The most recent n entries of a list (the final rolling window). -/
def lastWindow (n : ℕ) (l : List ℚ) : List ℚ := l.drop (l.length - n)

/-- Sample variance with ddof = 1 (the square of pandas rolling std). -/
def sampleVar (w : List ℚ) : ℚ :=
  ((w.map (fun x => (x - w.sum / (w.length : ℚ)) ^ 2)).sum) / ((w.length - 1 : ℕ) : ℚ)

/-- Last entry of gaps.rolling(20).std(), squared: none models the NaN that
    pandas produces when fewer than 20 samples exist, and some v gives the
    sample variance v = std ^ 2 of the most recent 20 samples. -/
def rollingVar20Last (gaps : List ℚ) : Option ℚ :=
  if gaps.length < 20 then none else some (sampleVar (lastWindow 20 gaps))

/-- hook_up of the source: (d1 <= d2) and (d0 > d1) and
    (d0 - d1) >= abs(d1 - d2) * 0.6. -/
def hook_up (d2 d1 d0 : ℚ) : Bool :=
  decide (d1 ≤ d2) && decide (d0 > d1) && decide (d0 - d1 ≥ |d1 - d2| * (3 / 5))

/-- hook_down of the source: (d1 >= d2) and (d0 < d1) and
    (d1 - d0) >= abs(d1 - d2) * 0.6. -/
def hook_down (d2 d1 d0 : ℚ) : Bool :=
  decide (d1 ≥ d2) && decide (d0 < d1) && decide (d1 - d0 ≥ |d1 - d2| * (3 / 5))

/-- shrink_red of the source: h2 > h1 > 0 and 0 < h0 < h1 * 0.75. -/
def shrink_red (h2 h1 h0 : ℚ) : Bool :=
  decide (h2 > h1) && decide (h1 > 0) && decide (0 < h0) && decide (h0 < h1 * (3 / 4))

/-- shrink_green of the source: h2 < h1 < 0 and h0 > h1 * 1.3 and h0 < 0. -/
def shrink_green (h2 h1 h0 : ℚ) : Bool :=
  decide (h2 < h1) && decide (h1 < 0) && decide (h0 > h1 * (13 / 10)) && decide (h0 < 0)

/-- very_close of the source: distance < std20 * 0.4 if std20 is defined,
    else True.  The strict comparison of nonnegative values is embedded by
    its square: distance ^ 2 < variance * 0.16. -/
def very_close (gaps : List ℚ) (distance : ℚ) : Bool :=
  match rollingVar20Last gaps with
  | none => true
  | some v => decide (distance ^ 2 < v * (4 / 25))

/-- The dictionary returned by macd_early_signal. -/
structure MacdResult where
  dif : List ℚ
  signal : List ℚ
  histogram : List ℚ
  bull_early : Bool
  bear_early : Bool
deriving Repr, DecidableEq

/-- macd_early_signal of the source (lines 138-164), over an exact-rational
    close series. -/
def macd_early_signal (closes : List ℚ) : MacdResult :=
  let dif := difSeries closes
  let dea := deaSeries closes
  let hist := histSeries closes
  if closes.length < 35 then
    ⟨dif, dea, hist, false, false⟩
  else
    let d2 := iloc dif 3
    let d1 := iloc dif 2
    let d0 := iloc dif 1
    let s0 := iloc dea 1
    let h2 := iloc hist 3
    let h1 := iloc hist 2
    let h0 := iloc hist 1
    let vc := very_close (gapSeries closes) |d0 - s0|
    let bull := (hook_up d2 d1 d0 || shrink_green h2 h1 h0) && vc && decide (d0 < s0)
    let bear := (hook_down d2 d1 d0 || shrink_red h2 h1 h0) && vc && decide (d0 > s0)
    ⟨dif, dea, hist, bull, bear⟩

/-- Shorthand for dif.iloc[-k]. -/
def difAt (closes : List ℚ) (k : ℕ) : ℚ := iloc (difSeries closes) k

/-- Shorthand for dea.iloc[-k]. -/
def sigAt (closes : List ℚ) (k : ℕ) : ℚ := iloc (deaSeries closes) k

/-- Shorthand for histogram.iloc[-k]. -/
def histAt (closes : List ℚ) (k : ℕ) : ℚ := iloc (histSeries closes) k

/-- distance of the source: abs(d0 - s0). -/
def distance (closes : List ℚ) : ℚ := |difAt closes 1 - sigAt closes 1|

/-- Guarded pandas negative indexing: series.iloc[-k] raises unless
    1 <= k <= len(series); none models the raised IndexError. -/
def ilocOpt (l : List ℚ) (k : ℕ) : Option ℚ :=
  if 0 < k ∧ k ≤ l.length then l[l.length - k]? else none

/-- macd_early_signal with every element access guarded the way pandas
    checks it: none models an out-of-bounds access.  The guard after the
    match models the access rolling(20).std().iloc[-1], which needs the
    rolling output (one entry per input gap) to be nonempty. -/
def macd_early_signal_checked (closes : List ℚ) : Option MacdResult :=
  let dif := difSeries closes
  let dea := deaSeries closes
  let hist := histSeries closes
  if closes.length < 35 then
    some ⟨dif, dea, hist, false, false⟩
  else
    match ilocOpt dif 3, ilocOpt dif 2, ilocOpt dif 1, ilocOpt dea 1,
        ilocOpt hist 3, ilocOpt hist 2, ilocOpt hist 1 with
    | some d2, some d1, some d0, some s0, some h2, some h1, some h0 =>
      if 1 ≤ (gapSeries closes).length then
        some ⟨dif, dea, hist,
          (hook_up d2 d1 d0 || shrink_green h2 h1 h0) &&
            very_close (gapSeries closes) |d0 - s0| && decide (d0 < s0),
          (hook_down d2 d1 d0 || shrink_red h2 h1 h0) &&
            very_close (gapSeries closes) |d0 - s0| && decide (d0 > s0)⟩
      else none
    | _, _, _, _, _, _, _ => none

/- ===================== Dedup ledger and background monitor =============== -/

/-- The two notification kinds recorded in st.session_state.sent_signals. -/
inductive Kind
  | bull
  | bear
deriving DecidableEq, Repr

/-- One monitoring cycle of background_monitor for a fixed key, lines
    215-226 of the source: the ledger holds the last recorded kind for the
    key (none when the key is absent), and each branch sends and then
    overwrites the entry when its flag is up and the stored kind differs.
    The returned list is the sequence of notifications sent this cycle. -/
def monitorStep (st : Option Kind) (bull bear : Bool) : Option Kind × List Kind :=
  let p1 : Option Kind × List Kind :=
    if bull ∧ st ≠ some Kind.bull then (some Kind.bull, [Kind.bull]) else (st, [])
  let p2 : Option Kind × List Kind :=
    if bear ∧ p1.1 ≠ some Kind.bear then (some Kind.bear, [Kind.bear]) else (p1.1, [])
  (p2.1, p1.2 ++ p2.2)

/-- A sequence of monitoring cycles for a fixed key; each cycle carries the
    (bull_early, bear_early) pair the detector produced for that cycle.
    Returns the final ledger entry and all notifications sent, in order. -/
def monitorRun (st : Option Kind) : List (Bool × Bool) → Option Kind × List Kind
  | [] => (st, [])
  | c :: cs =>
    let p := monitorStep st c.1 c.2
    let q := monitorRun p.1 cs
    (q.1, p.2 ++ q.2)

/-- One HTTP post to the Telegram API: the boolean is the delivery outcome,
    and a failed delivery raises (models requests.post inside
    send_telegram). -/
def requestsPost (ok : Bool) : Except String Unit :=
  if ok then Except.ok () else Except.error "request failed"

/-- send_telegram of the source (lines 193-200): for each configured chat it
    posts inside try/except pass, so a failed post is swallowed and the loop
    body always produces a value; the function as a whole therefore always
    returns normally, which the outer Except.ok records. -/
def send_telegram (oks : List Bool) : Except String Unit :=
  Except.ok (oks.foldl
    (fun u ok =>
      match requestsPost ok with
      | Except.ok v => v
      | Except.error _ => u)
    ())

/-- One monitoring cycle with delivery outcomes made explicit: oks1 are the
    per-chat outcomes of the bull message, oks2 of the bear message.  If
    send_telegram raised, the surrounding try/except of background_monitor
    would abandon the cycle before recording, which the error branches
    model.  The attempt list pairs each sent kind with its delivery
    outcomes. -/
def monitorStepD (st : Option Kind) (bull bear : Bool) (oks1 oks2 : List Bool) :
    Option Kind × List (Kind × List Bool) :=
  if bull ∧ st ≠ some Kind.bull then
    match send_telegram oks1 with
    | Except.error _ => (st, [])
    | Except.ok _ =>
      if bear ∧ (some Kind.bull : Option Kind) ≠ some Kind.bear then
        match send_telegram oks2 with
        | Except.error _ => (some Kind.bull, [(Kind.bull, oks1)])
        | Except.ok _ => (some Kind.bear, [(Kind.bull, oks1), (Kind.bear, oks2)])
      else (some Kind.bull, [(Kind.bull, oks1)])
  else
    if bear ∧ st ≠ some Kind.bear then
      match send_telegram oks2 with
      | Except.error _ => (st, [])
      | Except.ok _ => (some Kind.bear, [(Kind.bear, oks2)])
    else (st, [])

/-- A sequence of monitoring cycles with explicit delivery outcomes. -/
def monitorRunD (st : Option Kind) :
    List ((Bool × Bool) × (List Bool × List Bool)) → Option Kind × List (Kind × List Bool)
  | [] => (st, [])
  | c :: cs =>
    let p := monitorStepD st c.1.1 c.1.2 c.2.1 c.2.2
    let q := monitorRunD p.1 cs
    (q.1, p.2 ++ q.2)

/- ===================== Specification-side predicates ==================== -/

/-- Modelled from the claim text of C1: hook-up is d1 <= d2 AND d0 > d1 AND
    (d0 - d1) >= 0.6 * abs(d1 - d2). -/
def spec_hook_up (d2 d1 d0 : ℚ) : Prop :=
  d1 ≤ d2 ∧ d0 > d1 ∧ d0 - d1 ≥ (3 / 5) * |d1 - d2|

/-- Modelled from the claim text of C1: hook-down is the sign-reversed
    hook-up. -/
def spec_hook_down (d2 d1 d0 : ℚ) : Prop :=
  d1 ≥ d2 ∧ d0 < d1 ∧ d1 - d0 ≥ (3 / 5) * |d1 - d2|

/-- Modelled from the claim text of C1 and C3: shrink-red is
    h2 > h1 > 0 AND 0 < h0 < 0.75 * h1. -/
def spec_shrink_red (h2 h1 h0 : ℚ) : Prop :=
  h2 > h1 ∧ h1 > 0 ∧ 0 < h0 ∧ h0 < (3 / 4) * h1

/-- Modelled from the claim text of C1: shrink-green is
    h2 < h1 < 0 AND h0 > 1.3 * h1 AND h0 < 0. -/
def spec_shrink_green (h2 h1 h0 : ℚ) : Prop :=
  h2 < h1 ∧ h1 < 0 ∧ h0 > (13 / 10) * h1 ∧ h0 < 0

/- ===================== Concrete inputs used by witnesses ================ -/

/-- A constant series of 35 bars. -/
def constList35 : List ℚ := List.replicate 35 1

/-- A 35-bar series: 21 bars at 100 followed by 14 bars at 105.  At its last
    bar the histogram is positive and shrinking (shrink-red) and the
    proximity gate is satisfied. -/
def closes21x14 : List ℚ := List.replicate 21 100 ++ List.replicate 14 105

/- ===================== Basic lemmas ===================================== -/

theorem emaFrom_length (a prev : ℚ) (l : List ℚ) : (emaFrom a prev l).length = l.length := by
  induction l generalizing prev with
  | nil => rfl
  | cons x xs ih => simp [emaFrom, ih]

theorem ema_length (a : ℚ) (l : List ℚ) : (ema a l).length = l.length := by
  cases l with
  | nil => rfl
  | cons x xs => simp [ema, emaFrom_length]

theorem difSeries_length (closes : List ℚ) : (difSeries closes).length = closes.length := by
  simp [difSeries, ema_length]

theorem deaSeries_length (closes : List ℚ) : (deaSeries closes).length = closes.length := by
  simp [deaSeries, ema_length, difSeries_length]

theorem histSeries_length (closes : List ℚ) : (histSeries closes).length = closes.length := by
  simp [histSeries, difSeries_length, deaSeries_length]

theorem gapSeries_length (closes : List ℚ) : (gapSeries closes).length = closes.length := by
  simp [gapSeries, difSeries_length, deaSeries_length]

theorem emaStep_self (a c : ℚ) : emaStep a c c = c := by
  simp [emaStep]; ring

theorem emaFrom_replicate (a c : ℚ) (n : ℕ) :
    emaFrom a c (List.replicate n c) = List.replicate n c := by
  induction n with
  | zero => rfl
  | succ m ih => simp [List.replicate_succ, emaFrom, emaStep_self, ih]

theorem ema_replicate (a c : ℚ) (n : ℕ) :
    ema a (List.replicate n c) = List.replicate n c := by
  cases n with
  | zero => rfl
  | succ m => simp [List.replicate_succ, ema, emaFrom_replicate]

theorem zipWith_replicate_self (f : ℚ → ℚ → ℚ) (n : ℕ) (a b : ℚ) :
    List.zipWith f (List.replicate n a) (List.replicate n b) = List.replicate n (f a b) := by
  induction n with
  | zero => rfl
  | succ m ih => simp [List.replicate_succ, ih]

theorem difSeries_replicate (c : ℚ) (n : ℕ) :
    difSeries (List.replicate n c) = List.replicate n 0 := by
  simp [difSeries, ema_replicate, zipWith_replicate_self]

theorem deaSeries_replicate (c : ℚ) (n : ℕ) :
    deaSeries (List.replicate n c) = List.replicate n 0 := by
  simp [deaSeries, difSeries_replicate, ema_replicate]

theorem histSeries_replicate (c : ℚ) (n : ℕ) :
    histSeries (List.replicate n c) = List.replicate n 0 := by
  simp [histSeries, difSeries_replicate, deaSeries_replicate, zipWith_replicate_self]

theorem gapSeries_replicate (c : ℚ) (n : ℕ) :
    gapSeries (List.replicate n c) = List.replicate n 0 := by
  simp [gapSeries, difSeries_replicate, deaSeries_replicate, zipWith_replicate_self]

theorem iloc_replicate_zero (n k : ℕ) : iloc (List.replicate n (0 : ℚ)) k = 0 := by
  unfold iloc
  rcases lt_or_le (n - k) n with h | h
  · rw [List.getD_eq_getElem _ _ (by simpa using h)]
    simp
  · rw [List.getD_eq_default _ _ (by simpa using h)]

/-- Unfolding of the detector on the sufficient-history branch. -/
theorem macd_early_signal_of_ge (closes : List ℚ) (h : ¬ closes.length < 35) :
    macd_early_signal closes =
      ⟨difSeries closes, deaSeries closes, histSeries closes,
        (hook_up (difAt closes 3) (difAt closes 2) (difAt closes 1) ||
            shrink_green (histAt closes 3) (histAt closes 2) (histAt closes 1)) &&
          very_close (gapSeries closes) (distance closes) &&
          decide (difAt closes 1 < sigAt closes 1),
        (hook_down (difAt closes 3) (difAt closes 2) (difAt closes 1) ||
            shrink_red (histAt closes 3) (histAt closes 2) (histAt closes 1)) &&
          very_close (gapSeries closes) (distance closes) &&
          decide (difAt closes 1 > sigAt closes 1)⟩ := by
  simp [macd_early_signal, h, difAt, sigAt, histAt, distance]

theorem hook_up_eq_true (d2 d1 d0 : ℚ) :
    hook_up d2 d1 d0 = true ↔ spec_hook_up d2 d1 d0 := by
  simp [hook_up, spec_hook_up, and_assoc, mul_comm]

theorem hook_down_eq_true (d2 d1 d0 : ℚ) :
    hook_down d2 d1 d0 = true ↔ spec_hook_down d2 d1 d0 := by
  simp [hook_down, spec_hook_down, and_assoc, mul_comm]

theorem shrink_red_eq_true (h2 h1 h0 : ℚ) :
    shrink_red h2 h1 h0 = true ↔ spec_shrink_red h2 h1 h0 := by
  simp [shrink_red, spec_shrink_red, and_assoc, mul_comm]

theorem shrink_green_eq_true (h2 h1 h0 : ℚ) :
    shrink_green h2 h1 h0 = true ↔ spec_shrink_green h2 h1 h0 := by
  simp [shrink_green, spec_shrink_green, and_assoc, mul_comm]

theorem sampleVar_nonneg (w : List ℚ) : 0 ≤ sampleVar w := by
  unfold sampleVar
  apply div_nonneg
  · apply List.sum_nonneg
    intro x hx
    simp only [List.mem_map] at hx
    obtain ⟨y, -, rfl⟩ := hx
    positivity
  · positivity

theorem sampleVar_replicate_zero (m : ℕ) : sampleVar (List.replicate m (0 : ℚ)) = 0 := by
  unfold sampleVar
  simp

/-- The final ledger entry after one cycle is the last notification sent in
    that cycle, or the unchanged entry when nothing was sent. -/
theorem monitorStep_state (st : Option Kind) (b r : Bool) :
    (monitorStep st b r).1 = (monitorStep st b r).2.foldl (fun _ k => some k) st := by
  rcases st with - | k
  · cases b <;> cases r <;> simp [monitorStep]
  · cases k <;> cases b <;> cases r <;> simp [monitorStep]

/-- Within one cycle, the previous ledger entry and the notifications sent
    form a chain of pairwise different neighbours. -/
theorem monitorStep_chain (st : Option Kind) (b r : Bool) :
    List.Chain' (fun a c => a ≠ c) (st.toList ++ (monitorStep st b r).2) := by
  rcases st with - | k
  · cases b <;> cases r <;> simp [monitorStep]
  · cases k <;> cases b <;> cases r <;> simp [monitorStep]

/-- Across any cycle sequence, the starting ledger entry followed by all
    notifications sent forms a chain of pairwise different neighbours. -/
theorem monitorRun_chain (cycles : List (Bool × Bool)) :
    ∀ st : Option Kind, List.Chain' (fun a c => a ≠ c) (st.toList ++ (monitorRun st cycles).2) := by
  induction cycles with
  | nil =>
    intro st
    rcases st with - | k <;> simp [monitorRun, List.chain'_singleton]
  | cons c cs ih =>
    intro st
    have hstep := monitorStep_chain st c.1 c.2
    have hstate := monitorStep_state st c.1 c.2
    rcases hm : monitorStep st c.1 c.2 with ⟨st1, out⟩
    rw [hm] at hstep hstate
    simp only at hstep hstate
    have hrest := ih st1
    have hsplit : (monitorRun st (c :: cs)).2 = out ++ (monitorRun st1 cs).2 := by
      simp [monitorRun, hm]
    rw [hsplit, ← List.append_assoc]
    rcases List.eq_nil_or_concat out with rfl | ⟨l, k, rfl⟩
    · simp only [List.foldl_nil] at hstate
      subst hstate
      simpa using hrest
    · have hst1 : st1 = some k := by
        simp [hstate, List.foldl_append]
      subst hst1
      have hchain2 : List.Chain' (fun a b => a ≠ b) (k :: (monitorRun (some k) cs).2) := by
        simpa using hrest
      apply List.Chain'.append hstep hchain2.tail
      intro x hx y hy
      rw [List.concat_eq_append, ← List.append_assoc, List.getLast?_concat] at hx
      simp only [Option.mem_def, Option.some.injEq] at hx
      subst hx
      exact (List.chain'_cons'.1 hchain2).1 y hy

theorem ilocOpt_eq_iloc (l : List ℚ) (k : ℕ) (h1 : 0 < k) (h2 : k ≤ l.length) :
    ilocOpt l k = some (iloc l k) := by
  have hlt : l.length - k < l.length := by omega
  rw [ilocOpt, if_pos ⟨h1, h2⟩, iloc, List.getElem?_eq_getElem hlt,
    List.getD_eq_getElem _ _ hlt]

/-- The last histogram samples are twice the gap between the last dif and
    dea samples (histogram = (dif - dea) * 2 elementwise). -/
theorem histAt_eq (closes : List ℚ) (k : ℕ) (h1 : 1 ≤ k) (h2 : k ≤ closes.length) :
    histAt closes k = (difAt closes k - sigAt closes k) * 2 := by
  have hlt : closes.length - k < closes.length := by omega
  unfold histAt difAt sigAt iloc
  rw [histSeries_length, difSeries_length, deaSeries_length]
  rw [List.getD_eq_getElem _ _ (by rw [histSeries_length]; omega),
    List.getD_eq_getElem _ _ (by rw [difSeries_length]; omega),
    List.getD_eq_getElem _ _ (by rw [deaSeries_length]; omega)]
  simp [histSeries]

theorem send_telegram_ok (oks : List Bool) : send_telegram oks = Except.ok () := rfl

/-- Delivery outcomes never influence the ledger update or which kinds are
    sent, because send_telegram swallows every failure. -/
theorem monitorStepD_ledger (st : Option Kind) (b r : Bool) (oks1 oks2 : List Bool) :
    (monitorStepD st b r oks1 oks2).1 = (monitorStep st b r).1 ∧
    (monitorStepD st b r oks1 oks2).2.map Prod.fst = (monitorStep st b r).2 := by
  rcases st with - | k
  · cases b <;> cases r <;> simp [monitorStepD, monitorStep, send_telegram]
  · cases k <;> cases b <;> cases r <;> simp [monitorStepD, monitorStep, send_telegram]

theorem monitorRunD_eq (cs : List ((Bool × Bool) × (List Bool × List Bool))) :
    ∀ st : Option Kind,
      (monitorRunD st cs).1 = (monitorRun st (cs.map Prod.fst)).1 ∧
      (monitorRunD st cs).2.map Prod.fst = (monitorRun st (cs.map Prod.fst)).2 := by
  induction cs with
  | nil => intro st; simp [monitorRunD, monitorRun]
  | cons c cs ih =>
    intro st
    have hstep := monitorStepD_ledger st c.1.1 c.1.2 c.2.1 c.2.2
    have hih := ih (monitorStepD st c.1.1 c.1.2 c.2.1 c.2.2).1
    constructor
    · show (monitorRunD (monitorStepD st c.1.1 c.1.2 c.2.1 c.2.2).1 cs).1 = _
      rw [hih.1, hstep.1]
      rfl
    · show ((monitorStepD st c.1.1 c.1.2 c.2.1 c.2.2).2 ++
          (monitorRunD (monitorStepD st c.1.1 c.1.2 c.2.1 c.2.2).1 cs).2).map Prod.fst = _
      rw [List.map_append, hih.2, hstep.2, hstep.1]
      rfl

set_option maxRecDepth 100000 in
/-- Exact evaluation of the detector on closes21x14: shrink-red holds, the
    gate is satisfied, dif is above dea, and the detector classifies the bar
    as bearish-early and not bullish-early. -/
theorem closes21x14_eval :
    spec_shrink_red (histAt closes21x14 3) (histAt closes21x14 2) (histAt closes21x14 1) ∧
    very_close (gapSeries closes21x14) (distance closes21x14) = true ∧
    (macd_early_signal closes21x14).bull_early = false ∧
    (macd_early_signal closes21x14).bear_early = true ∧
    sigAt closes21x14 1 < difAt closes21x14 1 := by
  norm_num [closes21x14, macd_early_signal, difSeries, deaSeries, histSeries, gapSeries,
    ema, emaFrom, emaStep, alphaFast, alphaSlow, alphaSig, iloc, lastWindow, sampleVar,
    rollingVar20Last, very_close, distance, hook_up, hook_down, shrink_red, shrink_green,
    spec_shrink_red, difAt, sigAt, histAt, List.replicate, abs_of_nonneg, abs_of_nonpos]

/- ===================== Claims =========================================== -/

/-- C1: for every input series of length at least 35, the classification of
    the detector follows the final rule of the spec exactly: bull_early iff
    (hook-up or histogram-shrink-green) and the proximity gate and d0 < s0,
    and bear_early iff (hook-down or histogram-shrink-red) and the proximity
    gate and d0 > s0, with the component patterns as spelled out by the
    claim. -/
theorem C1_final_classification (closes : List ℚ) (h : 35 ≤ closes.length) :
    ((macd_early_signal closes).bull_early = true ↔
      ((spec_hook_up (difAt closes 3) (difAt closes 2) (difAt closes 1) ∨
          spec_shrink_green (histAt closes 3) (histAt closes 2) (histAt closes 1)) ∧
        very_close (gapSeries closes) (distance closes) = true ∧
        difAt closes 1 < sigAt closes 1)) ∧
    ((macd_early_signal closes).bear_early = true ↔
      ((spec_hook_down (difAt closes 3) (difAt closes 2) (difAt closes 1) ∨
          spec_shrink_red (histAt closes 3) (histAt closes 2) (histAt closes 1)) ∧
        very_close (gapSeries closes) (distance closes) = true ∧
        difAt closes 1 > sigAt closes 1)) := by
  rw [macd_early_signal_of_ge closes (by omega)]
  simp [Bool.and_eq_true, Bool.or_eq_true, hook_up_eq_true, hook_down_eq_true,
    shrink_red_eq_true, shrink_green_eq_true, and_assoc]

/-- Witness for C1 at a concrete 35-bar input. -/
theorem C1_witness :
    ((macd_early_signal constList35).bull_early = true ↔
      ((spec_hook_up (difAt constList35 3) (difAt constList35 2) (difAt constList35 1) ∨
          spec_shrink_green (histAt constList35 3) (histAt constList35 2) (histAt constList35 1)) ∧
        very_close (gapSeries constList35) (distance constList35) = true ∧
        difAt constList35 1 < sigAt constList35 1)) ∧
    ((macd_early_signal constList35).bear_early = true ↔
      ((spec_hook_down (difAt constList35 3) (difAt constList35 2) (difAt constList35 1) ∨
          spec_shrink_red (histAt constList35 3) (histAt constList35 2) (histAt constList35 1)) ∧
        very_close (gapSeries constList35) (distance constList35) = true ∧
        difAt constList35 1 > sigAt constList35 1)) :=
  C1_final_classification constList35 (by simp [constList35])

/-- C2 counterexample: for a fixed key, the cycle results bull, bear, bull
    make the monitor send the bull notification twice, so the notifier is
    not invoked at most once per (key, kind). -/
theorem C2_counterexample :
    ¬ (List.count Kind.bull
        (monitorRun none [(true, false), (false, true), (true, false)]).2 ≤ 1) := by
  decide

/-- C2 amended: the ledger stores only the last reported kind per key, so
    the guarantee that holds is alternation, not at-most-once: in the
    notification sequence for a fixed key no two consecutive notifications
    have the same kind (a kind can be re-reported only after the opposite
    kind was recorded for the same key). -/
theorem C2_amended_alternation (cycles : List (Bool × Bool)) :
    List.Chain' (fun a b => a ≠ b) (monitorRun none cycles).2 := by
  simpa using monitorRun_chain cycles none

/-- C3 counterexample: on a concrete 35-bar input the shrink-red premises
    hold and the proximity gate is satisfied, yet the bullish directional
    constraint d0 < s0 fails and the detector does not classify the bar as
    bullish-early, so histogram-shrink-red is not a bullish precursor. -/
theorem C3_counterexample :
    spec_shrink_red (histAt closes21x14 3) (histAt closes21x14 2) (histAt closes21x14 1) ∧
    very_close (gapSeries closes21x14) (distance closes21x14) = true ∧
    ¬ (difAt closes21x14 1 < sigAt closes21x14 1) ∧
    (macd_early_signal closes21x14).bull_early = false := by
  obtain ⟨h1, h2, h3, h4, h5⟩ := closes21x14_eval
  exact ⟨h1, h2, not_lt.mpr h5.le, h3⟩

/-- C3 amended: histogram-shrink-red is a bearish precursor: for every input
    of length at least 35 on which the shrink-red premises hold and the
    proximity gate is satisfied, the bearish directional constraint d0 > s0
    holds automatically (the last histogram sample is twice the last
    dif-minus-dea gap) and the detector classifies the bar as
    bearish-early. -/
theorem C3_amended_shrink_red_bearish (closes : List ℚ) (h35 : 35 ≤ closes.length)
    (hsr : spec_shrink_red (histAt closes 3) (histAt closes 2) (histAt closes 1))
    (hgate : very_close (gapSeries closes) (distance closes) = true) :
    sigAt closes 1 < difAt closes 1 ∧ (macd_early_signal closes).bear_early = true := by
  have hh : histAt closes 1 = (difAt closes 1 - sigAt closes 1) * 2 :=
    histAt_eq closes 1 le_rfl (by omega)
  have hgt : sigAt closes 1 < difAt closes 1 := by
    have h0pos : 0 < histAt closes 1 := hsr.2.2.1
    rw [hh] at h0pos
    nlinarith
  refine ⟨hgt, ?_⟩
  rw [macd_early_signal_of_ge closes (by omega)]
  simp [hgate, (shrink_red_eq_true _ _ _).2 hsr, hgt]

/-- Witness for C3 amended at the concrete 35-bar input closes21x14. -/
theorem C3_amended_witness :
    sigAt closes21x14 1 < difAt closes21x14 1 ∧
    (macd_early_signal closes21x14).bear_early = true :=
  C3_amended_shrink_red_bearish closes21x14 (by simp [closes21x14])
    closes21x14_eval.1 closes21x14_eval.2.1

/-- C4: the proximity gate is computed from the final 20-sample rolling
    standard deviation of the dif-minus-dea gap: when that value is
    undefined the gate is open, and otherwise (in particular for every input
    of length at least 35, where it is defined and nonnegative) the gate is
    satisfied iff the current gap is strictly below 0.4 times that standard
    deviation. -/
theorem C4_proximity_gate :
    (∀ (gaps : List ℚ) (d : ℚ), rollingVar20Last gaps = none → very_close gaps d = true) ∧
    (∀ closes : List ℚ, 35 ≤ closes.length →
      ∃ v : ℚ, rollingVar20Last (gapSeries closes) = some v ∧ 0 ≤ v ∧
        (very_close (gapSeries closes) (distance closes) = true ↔
          ((distance closes : ℝ) < (2 / 5) * Real.sqrt (v : ℝ)))) := by
  constructor
  · intro gaps d h
    simp [very_close, h]
  · intro closes h35
    have hlen : ¬ (gapSeries closes).length < 20 := by
      rw [gapSeries_length]; omega
    refine ⟨sampleVar (lastWindow 20 (gapSeries closes)),
      by rw [rollingVar20Last, if_neg hlen], sampleVar_nonneg _, ?_⟩
    have hd : (0 : ℚ) ≤ distance closes := abs_nonneg _
    have hq : very_close (gapSeries closes) (distance closes) = true ↔
        (distance closes) ^ 2 < sampleVar (lastWindow 20 (gapSeries closes)) * (4 / 25) := by
      simp [very_close, rollingVar20Last, hlen]
    have hstep : ((2 : ℝ) / 5) * Real.sqrt ((sampleVar (lastWindow 20 (gapSeries closes)) : ℚ) : ℝ) =
        Real.sqrt ((4 / 25) * ((sampleVar (lastWindow 20 (gapSeries closes)) : ℚ) : ℝ)) := by
      rw [Real.sqrt_mul (by norm_num : (0 : ℝ) ≤ 4 / 25)]
      rw [show (4 / 25 : ℝ) = (2 / 5) ^ 2 by norm_num, Real.sqrt_sq (by norm_num : (0 : ℝ) ≤ 2 / 5)]
    rw [hq, hstep, Real.lt_sqrt (by exact_mod_cast hd)]
    rw [show ((4 : ℝ) / 25) * ((sampleVar (lastWindow 20 (gapSeries closes)) : ℚ) : ℝ) =
        ((sampleVar (lastWindow 20 (gapSeries closes)) * (4 / 25) : ℚ) : ℝ) by push_cast; ring]
    exact_mod_cast Iff.rfl

/-- Witness for C4: the open-gate branch at an empty gap list, and the
    defined branch at a concrete 35-bar input. -/
theorem C4_witness :
    very_close [] 0 = true ∧
    (∃ v : ℚ, rollingVar20Last (gapSeries constList35) = some v ∧ 0 ≤ v ∧
      (very_close (gapSeries constList35) (distance constList35) = true ↔
        ((distance constList35 : ℝ) < (2 / 5) * Real.sqrt (v : ℝ)))) :=
  ⟨C4_proximity_gate.1 [] 0 rfl, C4_proximity_gate.2 constList35 (by simp [constList35])⟩

/-- C5: for every input series the detector never reports bull_early and
    bear_early both true in the same evaluation. -/
theorem C5_mutual_exclusion (closes : List ℚ) :
    ((macd_early_signal closes).bull_early && (macd_early_signal closes).bear_early) = false := by
  by_cases h : closes.length < 35
  · simp [macd_early_signal, h]
  · rw [macd_early_signal_of_ge closes h]
    rcases le_or_lt (difAt closes 1) (sigAt closes 1) with hle | hlt
    · have hdec : decide (difAt closes 1 > sigAt closes 1) = false := by
        simp only [decide_eq_false_iff_not]
        exact not_lt.mpr hle
      simp [hdec]
    · have hdec : decide (difAt closes 1 < sigAt closes 1) = false := by
        simp only [decide_eq_false_iff_not]
        exact not_lt.mpr hlt.le
      simp [hdec]

/-- C6: for every input with fewer than 35 bars, the detector returns both
    flags false while still computing and returning the dif, signal and
    histogram series over the full input length. -/
theorem C6_insufficient_history (closes : List ℚ) (h : closes.length < 35) :
    macd_early_signal closes =
      ⟨difSeries closes, deaSeries closes, histSeries closes, false, false⟩ ∧
    (macd_early_signal closes).dif.length = closes.length ∧
    (macd_early_signal closes).signal.length = closes.length ∧
    (macd_early_signal closes).histogram.length = closes.length := by
  have he : macd_early_signal closes =
      ⟨difSeries closes, deaSeries closes, histSeries closes, false, false⟩ := by
    simp [macd_early_signal, h]
  refine ⟨he, ?_, ?_, ?_⟩ <;> rw [he]
  · exact difSeries_length closes
  · exact deaSeries_length closes
  · exact histSeries_length closes

/-- Witness for C6 at a concrete 10-bar input. -/
theorem C6_witness :
    macd_early_signal (List.replicate 10 (1 : ℚ)) =
      ⟨difSeries (List.replicate 10 (1 : ℚ)), deaSeries (List.replicate 10 (1 : ℚ)),
        histSeries (List.replicate 10 (1 : ℚ)), false, false⟩ ∧
    (macd_early_signal (List.replicate 10 (1 : ℚ))).dif.length =
      (List.replicate 10 (1 : ℚ)).length ∧
    (macd_early_signal (List.replicate 10 (1 : ℚ))).signal.length =
      (List.replicate 10 (1 : ℚ)).length ∧
    (macd_early_signal (List.replicate 10 (1 : ℚ))).histogram.length =
      (List.replicate 10 (1 : ℚ)).length :=
  C6_insufficient_history (List.replicate 10 (1 : ℚ)) (by simp)

/-- C7: for every all-constant price series, under exact arithmetic the
    difference line and the histogram are identically 0 at every index, and
    the detector returns neither flag. -/
theorem C7_constant_series (c : ℚ) (n : ℕ) :
    difSeries (List.replicate n c) = List.replicate n 0 ∧
    histSeries (List.replicate n c) = List.replicate n 0 ∧
    (macd_early_signal (List.replicate n c)).bull_early = false ∧
    (macd_early_signal (List.replicate n c)).bear_early = false := by
  refine ⟨difSeries_replicate c n, histSeries_replicate c n, ?_, ?_⟩ <;>
  · by_cases h : (List.replicate n c).length < 35
    · have hn : n < 35 := by simpa using h
      simp [macd_early_signal, hn]
    · rw [macd_early_signal_of_ge _ h]
      simp [difAt, sigAt, histAt, difSeries_replicate, deaSeries_replicate,
        histSeries_replicate, iloc_replicate_zero, hook_up, hook_down, shrink_red,
        shrink_green]

/-- C8 counterexample: with one configured chat, a bull notification whose
    delivery fails is still recorded; after a bear notification for the same
    key, the same (key, bull) event is sent again on a later cycle, so the
    claim that the same (key, kind) event is never re-sent does not hold. -/
theorem C8_counterexample :
    ((monitorRunD none
        [((true, false), ([false], [])),
          ((false, true), ([], [true])),
          ((true, false), ([true], []))]).2.map Prod.fst) =
      [Kind.bull, Kind.bear, Kind.bull] ∧
    ¬ (List.count Kind.bull
        ((monitorRunD none
          [((true, false), ([false], [])),
            ((false, true), ([], [true])),
            ((true, false), ([true], []))]).2.map Prod.fst) ≤ 1) := by
  decide

/-- C8 amended: a delivery failure is swallowed: send_telegram always
    returns normally, and over any cycle sequence the ledger state and the
    sequence of attempted (key, kind) events are exactly those of the
    success case, whatever the per-chat delivery outcomes are; in particular
    a failed push triggers no retry, and an event can be attempted again
    only in the alternation case that applies equally to successful
    pushes. -/
theorem C8_amended_failure_irrelevant (st : Option Kind)
    (cs : List ((Bool × Bool) × (List Bool × List Bool))) :
    (∀ oks : List Bool, send_telegram oks = Except.ok ()) ∧
    (monitorRunD st cs).1 = (monitorRun st (cs.map Prod.fst)).1 ∧
    (monitorRunD st cs).2.map Prod.fst = (monitorRun st (cs.map Prod.fst)).2 :=
  ⟨send_telegram_ok, (monitorRunD_eq cs st).1, (monitorRunD_eq cs st).2⟩

/-- C9: for every input of length at least 35 whose final 20-sample rolling
    deviation of the gap is defined and exactly zero, the proximity gate
    blocks and both flags are false. -/
theorem C9_zero_volatility (closes : List ℚ) (h35 : 35 ≤ closes.length)
    (hvar : rollingVar20Last (gapSeries closes) = some 0) :
    (macd_early_signal closes).bull_early = false ∧
    (macd_early_signal closes).bear_early = false := by
  have hvc : very_close (gapSeries closes) (distance closes) = false := by
    simp only [very_close, hvar, zero_mul, decide_eq_false_iff_not, not_lt]
    positivity
  rw [macd_early_signal_of_ge closes (by omega)]
  simp [hvc]

/-- Witness for C9 at a constant 35-bar input, whose gap series is
    identically zero. -/
theorem C9_witness :
    35 ≤ constList35.length ∧
    rollingVar20Last (gapSeries constList35) = some 0 ∧
    (macd_early_signal constList35).bull_early = false ∧
    (macd_early_signal constList35).bear_early = false := by
  have h1 : 35 ≤ constList35.length := by simp [constList35]
  have h2 : rollingVar20Last (gapSeries constList35) = some 0 := by
    rw [constList35, gapSeries_replicate]
    rw [rollingVar20Last, if_neg (by simp)]
    rw [lastWindow, List.length_replicate, List.drop_replicate, sampleVar_replicate_zero]
  obtain ⟨hb, hr⟩ := C9_zero_volatility constList35 h1 h2
  exact ⟨h1, h2, hb, hr⟩

/-- C10: the detector never performs an out-of-bounds access: the guarded
    variant, in which every element access is checked the way pandas checks
    it, succeeds on every input and agrees with the unguarded detector. -/
theorem C10_no_out_of_bounds (closes : List ℚ) :
    macd_early_signal_checked closes = some (macd_early_signal closes) := by
  by_cases h : closes.length < 35
  · simp [macd_early_signal_checked, macd_early_signal, h]
  · have h35 : 35 ≤ closes.length := by omega
    have e1 := ilocOpt_eq_iloc (difSeries closes) 3 (by omega) (by rw [difSeries_length]; omega)
    have e2 := ilocOpt_eq_iloc (difSeries closes) 2 (by omega) (by rw [difSeries_length]; omega)
    have e3 := ilocOpt_eq_iloc (difSeries closes) 1 (by omega) (by rw [difSeries_length]; omega)
    have e4 := ilocOpt_eq_iloc (deaSeries closes) 1 (by omega) (by rw [deaSeries_length]; omega)
    have e5 := ilocOpt_eq_iloc (histSeries closes) 3 (by omega) (by rw [histSeries_length]; omega)
    have e6 := ilocOpt_eq_iloc (histSeries closes) 2 (by omega) (by rw [histSeries_length]; omega)
    have e7 := ilocOpt_eq_iloc (histSeries closes) 1 (by omega) (by rw [histSeries_length]; omega)
    have hg : 1 ≤ (gapSeries closes).length := by rw [gapSeries_length]; omega
    rw [macd_early_signal_of_ge closes h]
    simp [macd_early_signal_checked, h, e1, e2, e3, e4, e5, e6, e7, hg,
      difAt, sigAt, histAt, distance]

end Macd
